import Mathlib

/-!
Verification of the wikipedia-feed engagement aggregation and recommendation
scoring subsystem against its natural-language specification.

The Python source is embedded shallowly: SQLite tables become lists of rows,
SQL joins become list binds and filters, Python dicts become insertion-ordered
association lists, floats become rationals, and the two sources of randomness
(the SQL `ORDER BY RANDOM()` draw and `random.shuffle`) become explicit
function parameters.  A run of `get_user_category_preferences` that would hit
Python's `ZeroDivisionError` is modelled as `none`.
-/

set_option autoImplicit false

namespace WikiFeed

/-- A row of the `engagement` table (src/engine/engagement.py).  The stored
timestamp only ever enters the computation through
`(datetime.now() - timestamp).days`, so it is embedded directly as the whole
number of days between the event and now. -/
structure Event where
  article_id : Int
  event_type : String
  user_id : String
  duration_seconds : ℚ
  scroll_depth : ℚ
  daysAgo : ℕ
deriving DecidableEq

/-- A row of the `articles` table.  `categoriesJson` is the raw text of the
`categories` column (matched by SQL `LIKE`), `categories` its parsed form
(`json.loads(row[4])`). -/
structure Article where
  id : Int
  page_id : Int
  title : String
  content : String
  categoriesJson : String
  categories : List String
  reading_time : ℚ
  word_count : ℕ
  access_count : ℕ
deriving DecidableEq

/-- The database: the `articles` table, the joined
`article_categories ⋈ categories` rows as `(article_id, category name)`
pairs, and the `engagement` table. -/
structure DB where
  articles : List Article
  articleCats : List (Int × String)
  events : List Event
deriving DecidableEq

/-- Categories of an article, as returned by the inner query of
`get_user_category_preferences` (join of `categories` with
`article_categories` on `article_id`). -/
def catsOf (db : DB) (aid : Int) : List String :=
  (db.articleCats.filter (fun p => p.1 == aid)).map Prod.snd

/-- The `weights` dict literal of `get_user_category_preferences`. -/
def eventWeights : List (String × ℚ) :=
  [("view", 1), ("read", 2), ("bookmark", 5), ("skip", -2), ("scroll", 1/2)]

/-- First-occurrence lookup in an insertion-ordered dict. -/
def dictGet (d : List (String × ℚ)) (k : String) : Option ℚ :=
  match d with
  | [] => none
  | (k', v) :: rest => if k' = k then some v else dictGet rest k

/-- `weights.get(event_type, 1.0)`. -/
def weightOf (t : String) : ℚ :=
  (dictGet eventWeights t).getD 1

/-- `min((duration or 0) / 600, 1.0)`. -/
def timeFactor (d : ℚ) : ℚ := min (d / 600) 1

/-- `0.9 ** days_ago`. -/
def recencyFactor (n : ℕ) : ℚ := (9/10) ^ n

/-- `weight * time_factor * recency_factor` for one fetched row. -/
def eventScore (e : Event) : ℚ :=
  weightOf e.event_type * timeFactor e.duration_seconds * recencyFactor e.daysAgo

/-- Events of the user inside the trailing window
(`e.user_id = ? AND e.timestamp > datetime('now', '-N days')`). -/
def windowEvents (db : DB) (user : String) (days : ℕ) : List Event :=
  db.events.filter (fun e => e.user_id == user && decide (e.daysAgo < days))

/-- The rows fetched by the outer query of `get_user_category_preferences`:
`engagement ⋈ articles ⋈ article_categories ⋈ categories` restricted to the
user and window.  Each event yields one row per matching `articles` row per
`article_categories` row, every row carrying the event's columns. -/
def outerRows (db : DB) (user : String) (days : ℕ) : List Event :=
  (windowEvents db user days).flatMap (fun e =>
    (db.articles.filter (fun a => a.id == e.article_id)).flatMap (fun _ =>
      (catsOf db e.article_id).map (fun _ => e)))

/-- `category_scores.get(k, 0)`: first-occurrence lookup with default 0. -/
def dget (d : List (String × ℚ)) (c : String) : ℚ :=
  match d with
  | [] => 0
  | (k, v) :: rest => if c = k then v else dget rest c

/-- `category_scores[cat] = category_scores.get(cat, 0) + score` on an
insertion-ordered dict: update the existing entry in place, else append. -/
def dictAdd (d : List (String × ℚ)) (k : String) (v : ℚ) : List (String × ℚ) :=
  match d with
  | [] => [(k, v)]
  | (k', v') :: rest =>
      if k' = k then (k', v' + v) :: rest else (k', v') :: dictAdd rest k v

/-- The `category_scores` dict after the double loop of
`get_user_category_preferences`: for each fetched row, the inner query
re-resolves the article's categories and the event's score is added to every
one of them. -/
def accumScores (db : DB) (user : String) (days : ℕ) : List (String × ℚ) :=
  (outerRows db user days).foldl
    (fun d e => (catsOf db e.article_id).foldl
      (fun d' c => dictAdd d' c (eventScore e)) d) []

/-- `max(category_scores.values()) if category_scores else 1`. -/
def maxVal (l : List ℚ) : ℚ :=
  match l with
  | [] => 1
  | x :: xs => xs.foldl max x

/-- `get_user_category_preferences`: accumulate, then normalize by the maximum
accumulated score.  When the maximum is zero the Python comprehension raises
`ZeroDivisionError`; that run is modelled as `none`.  (`maxVal [] = 1`, so the
zero maximum can only arise from a non-empty dict, exactly as in the code.) -/
def getUserCategoryPreferences (db : DB) (user : String) (days : ℕ) :
    Option (List (String × ℚ)) :=
  if maxVal ((accumScores db user days).map Prod.snd) = 0 then none
  else some ((accumScores db user days).map
    (fun kv => (kv.1, kv.2 / maxVal ((accumScores db user days).map Prod.snd))))

/-! ### Concrete databases used as inputs for the claims -/

/-- An article with the given id and parsed category list and all other
columns blank. -/
def art (i : Int) (cs : List String) : Article :=
  ⟨i, i, "", "", "", cs, 0, 0, 0⟩

/-- A single skip event of duration 0 (today) on an article whose only
category is Sports: its accumulated score is exactly 0. -/
def db3 : DB :=
  ⟨[art 7 [("Sports")]], [(7, ("Sports"))],
   [⟨7, ("skip"), ("captain"), 0, 0, 0⟩]⟩

/-- A single view event (duration 600, today) on an article that belongs to
two categories, Science and History. -/
def db4 : DB :=
  ⟨[art 1 [("Science"), ("History")]],
   [(1, ("Science")), (1, ("History"))],
   [⟨1, ("view"), ("captain"), 600, 0, 0⟩]⟩

/-- A view on a Science article and a skip on a Sports article, both of
duration 600 and today: accumulated scores are Science 1 and Sports −2. -/
def db5 : DB :=
  ⟨[art 1 [("Science")], art 2 [("Sports")]],
   [(1, ("Science")), (2, ("Sports"))],
   [⟨1, ("view"), ("captain"), 600, 0, 0⟩,
    ⟨2, ("skip"), ("captain"), 600, 0, 0⟩]⟩

/-! ### Dictionary accumulation lemmas -/

theorem dget_dictAdd (d : List (String × ℚ)) (k c : String) (v : ℚ) :
    dget (dictAdd d k v) c = dget d c + if c = k then v else 0 := by
  induction d with
  | nil => by_cases hc : c = k <;> simp [dictAdd, dget, hc]
  | cons p rest ih =>
      obtain ⟨k', v'⟩ := p
      by_cases hk : k' = k
      · subst hk
        by_cases hc : c = k' <;> simp [dictAdd, dget, hc]
      · by_cases hc : c = k'
        · have hck : ¬ c = k := by rw [hc]; exact hk
          simp [dictAdd, dget, hk, hc, hck]
        · simp [dictAdd, dget, hk, hc, ih]

theorem dget_innerFold (cs : List String) (d : List (String × ℚ)) (s : ℚ)
    (c : String) :
    dget (cs.foldl (fun d' c' => dictAdd d' c' s) d) c
      = dget d c + (cs.count c : ℚ) * s := by
  induction cs generalizing d with
  | nil => simp
  | cons c' cs' ih =>
      rw [List.foldl_cons, ih, dget_dictAdd]
      by_cases hc : c = c' <;> simp [List.count_cons, hc] <;> push_cast <;> ring

theorem dget_accumFold (db : DB) (rows : List Event) (d : List (String × ℚ))
    (c : String) :
    dget (rows.foldl (fun d' e => (catsOf db e.article_id).foldl
        (fun d'' c' => dictAdd d'' c' (eventScore e)) d') d) c
      = dget d c
        + (rows.map (fun e =>
            ((catsOf db e.article_id).count c : ℚ) * eventScore e)).sum := by
  induction rows generalizing d with
  | nil => simp
  | cons e rows' ih =>
      rw [List.foldl_cons, ih, dget_innerFold]
      simp only [List.map_cons, List.sum_cons]
      ring

theorem const_rows_sum {α β : Type} (A : List α) (B : List β) (e : Event)
    (f : Event → ℚ) :
    ((A.flatMap (fun _ => B.map (fun _ => e))).map f).sum
      = (A.length : ℚ) * (B.length : ℚ) * f e := by
  induction A with
  | nil => simp
  | cons a A' ih =>
      simp only [List.flatMap_cons, List.map_append, List.sum_append, ih,
        List.map_map]
      have hconst : (f ∘ fun (_ : β) => e) = fun _ => f e := rfl
      rw [hconst, List.map_const', List.sum_replicate, nsmul_eq_mul]
      simp only [List.length_cons]
      push_cast
      ring

theorem flatMap_rows_sum (db : DB) (l : List Event) (f : Event → ℚ) :
    ((l.flatMap (fun e =>
        (db.articles.filter (fun a => a.id == e.article_id)).flatMap (fun _ =>
          (catsOf db e.article_id).map (fun _ => e)))).map f).sum
      = (l.map (fun e =>
          ((db.articles.filter (fun a => a.id == e.article_id)).length : ℚ)
          * ((catsOf db e.article_id).length : ℚ) * f e)).sum := by
  induction l with
  | nil => simp
  | cons e l' ih =>
      simp only [List.flatMap_cons, List.map_append, List.sum_append, ih]
      rw [const_rows_sum]
      simp only [List.map_cons, List.sum_cons]

/-! ### Maximum-of-values lemmas -/

theorem foldl_max_mem (x : ℚ) (xs : List ℚ) : xs.foldl max x ∈ x :: xs := by
  induction xs generalizing x with
  | nil => simp
  | cons y ys ih =>
      rw [List.foldl_cons]
      rcases max_choice x y with h2 | h2 <;> rw [h2]
      · rcases List.mem_cons.mp (ih x) with h1 | h1
        · rw [h1]; exact List.mem_cons_self _ _
        · exact List.mem_cons_of_mem _ (List.mem_cons_of_mem _ h1)
      · rcases List.mem_cons.mp (ih y) with h1 | h1
        · rw [h1]; exact List.mem_cons_of_mem _ (List.mem_cons_self _ _)
        · exact List.mem_cons_of_mem _ (List.mem_cons_of_mem _ h1)

theorem le_foldl_max (x : ℚ) (xs : List ℚ) :
    x ≤ xs.foldl max x ∧ ∀ y ∈ xs, y ≤ xs.foldl max x := by
  induction xs generalizing x with
  | nil => simp
  | cons y ys ih =>
      rw [List.foldl_cons]
      obtain ⟨h1, h2⟩ := ih (max x y)
      refine ⟨le_trans (le_max_left x y) h1, ?_⟩
      intro z hz
      rcases List.mem_cons.mp hz with h | hz
      · rw [h]; exact le_trans (le_max_right x y) h1
      · exact h2 z hz

theorem maxVal_mem (l : List ℚ) (h : l ≠ []) : maxVal l ∈ l := by
  cases l with
  | nil => exact absurd rfl h
  | cons x xs => exact foldl_max_mem x xs

theorem le_maxVal (l : List ℚ) (x : ℚ) (hx : x ∈ l) : x ≤ maxVal l := by
  cases l with
  | nil => exact absurd hx (List.not_mem_nil x)
  | cons y ys =>
      rcases List.mem_cons.mp hx with rfl | hx
      · exact (le_foldl_max x ys).1
      · exact (le_foldl_max y ys).2 x hx

/-! ### Claim C3 -/

/-- C3: the claim says the normalization of `get_user_category_preferences`
short-circuits when the maximum accumulated score is zero.  The code only
guards the empty dict (`if category_scores else 1`): on a single skip event of
duration 0 the dict is `{Sports: 0}`, `max_score = 0`, and the comprehension
divides by zero (modelled as `none`), so the code raises `ZeroDivisionError`
instead of short-circuiting. -/
theorem c3_zero_max_division_fault :
    getUserCategoryPreferences db3 ("captain") 30 = none := by
  simp [getUserCategoryPreferences, accumScores, outerRows, windowEvents,
    catsOf, db3, art, eventScore, weightOf, timeFactor, recencyFactor,
    eventWeights, dictAdd, dictGet, maxVal]

/-! ### Claim C4 -/

/-- C4 counterexample: a single view event (score 1) on an article with the
two categories Science and History credits Science with 2, not the claimed
once-only 1 — the outer query's join over `article_categories` multiplies the
event's rows by the number of categories, and the inner loop then adds the
score to every category again. -/
theorem c4_counterexample :
    dget (accumScores db4 ("captain") 30) ("Science") = 2
    ∧ eventScore ⟨1, ("view"), ("captain"), 600, 0, 0⟩ = 1
    ∧ (2 : ℚ) ≠ 1 :=
  ⟨by
    simp [accumScores, outerRows, windowEvents, catsOf, db4, art,
      eventScore, weightOf, timeFactor, recencyFactor, eventWeights, dictAdd,
      dget, dictGet]
    norm_num,
   by
    simp [eventScore, weightOf, timeFactor, recencyFactor, eventWeights,
      dictGet],
   by norm_num⟩

/-- C4 (amended): each engagement event in the window contributes its score to
a category once per fetched outer row, i.e. (number of matching `articles`
rows) × (number of `article_categories` rows of the article) times per
occurrence of the category — for a uniquely stored article with N categories,
N times to each of them, not once. -/
theorem c4_score_multiplicity (db : DB) (u : String) (days : ℕ) (c : String) :
    dget (accumScores db u days) c
      = ((windowEvents db u days).map (fun e =>
          ((db.articles.filter (fun a => a.id == e.article_id)).length : ℚ)
          * ((catsOf db e.article_id).length : ℚ)
          * (((catsOf db e.article_id).count c : ℚ) * eventScore e))).sum := by
  unfold accumScores outerRows
  rw [dget_accumFold]
  simp only [dget]
  rw [flatMap_rows_sum]
  exact zero_add _

/-! ### Claim C5 -/

/-- C5 counterexample: with accumulated scores Science 1 and Sports −2, the
code normalizes by the signed maximum 1 and returns the weight −2, whose
absolute value exceeds 1 — refuting "every weight's absolute value is at
most 1.0". -/
theorem c5_counterexample :
    getUserCategoryPreferences db5 ("captain") 30
      = some [(("Science"), 1), (("Sports"), -2)]
    ∧ ¬ (|(-2 : ℚ)| ≤ 1) :=
  ⟨by
    simp [getUserCategoryPreferences, accumScores, outerRows, windowEvents,
      catsOf, db5, art, eventScore, weightOf, timeFactor, recencyFactor,
      eventWeights, dictAdd, dictGet, maxVal]
    norm_num,
   by norm_num⟩

/-- C5 (amended): whenever `get_user_category_preferences` returns a
non-empty mapping (the maximum accumulated score is nonzero, otherwise the
call faults), some category's weight is exactly 1.0 — never −1.0, since the
entry achieving the signed maximum is divided by itself — and when the
maximum accumulated score is positive every weight is at most 1.0, though
negative weights may have absolute value above 1.0. -/
theorem c5_normalization_invariant (db : DB) (u : String) (days : ℕ)
    (l : List (String × ℚ))
    (h : getUserCategoryPreferences db u days = some l) (hne : l ≠ []) :
    (∃ kv ∈ l, kv.2 = 1)
    ∧ (0 < maxVal ((accumScores db u days).map Prod.snd) →
        ∀ kv ∈ l, kv.2 ≤ 1) := by
  unfold getUserCategoryPreferences at h
  by_cases h0 : maxVal ((accumScores db u days).map Prod.snd) = 0
  · rw [if_pos h0] at h
    exact absurd h (by simp)
  · rw [if_neg h0] at h
    have hl := Option.some.inj h
    have hsne : accumScores db u days ≠ [] := by
      intro hc
      apply hne
      rw [← hl, hc]
      rfl
    have hmem : maxVal ((accumScores db u days).map Prod.snd)
        ∈ (accumScores db u days).map Prod.snd :=
      maxVal_mem _ (by simpa using hsne)
    obtain ⟨kv, hkv, hkv2⟩ := List.mem_map.mp hmem
    constructor
    · refine ⟨(kv.1, kv.2 / maxVal ((accumScores db u days).map Prod.snd)),
        ?_, ?_⟩
      · rw [← hl]
        exact List.mem_map_of_mem _ hkv
      · show kv.2 / maxVal ((accumScores db u days).map Prod.snd) = 1
        rw [hkv2]
        exact div_self h0
    · intro hpos kv' hkv'
      rw [← hl] at hkv'
      obtain ⟨p, hp, hpe⟩ := List.mem_map.mp hkv'
      rw [← hpe]
      have hle : p.2 ≤ maxVal ((accumScores db u days).map Prod.snd) :=
        le_maxVal _ _ (List.mem_map_of_mem _ hp)
      exact (div_le_one hpos).mpr hle

/-- C5 witness: the amended invariant instantiated on `db5`, whose
normalized mapping is Science 1, Sports −2. -/
theorem c5_normalization_invariant_witness :
    (∃ kv ∈ [(("Science"), (1 : ℚ)), (("Sports"), -2)], kv.2 = 1)
    ∧ (0 < maxVal ((accumScores db5 ("captain") 30).map Prod.snd) →
        ∀ kv ∈ [(("Science"), (1 : ℚ)), (("Sports"), -2)], kv.2 ≤ 1) :=
  c5_normalization_invariant db5 ("captain") 30
    [(("Science"), 1), (("Sports"), -2)]
    (by
      simp [getUserCategoryPreferences, accumScores, outerRows,
        windowEvents, catsOf, db5, art, eventScore, weightOf, timeFactor,
        recencyFactor, eventWeights, dictAdd, dictGet, maxVal]
      norm_num)
    (by simp)

/-! ### Claim C9 -/

/-- Replace every event of the given kind by an otherwise identical view
event. -/
def setKind (t : String) (db : DB) : DB :=
  { db with events := db.events.map (fun e =>
      if e.event_type = t then { e with event_type := ("view") } else e) }

theorem catsOf_setKind (t : String) (db : DB) (aid : Int) :
    catsOf (setKind t db) aid = catsOf db aid := rfl

theorem articles_setKind (t : String) (db : DB) :
    (setKind t db).articles = db.articles := rfl

theorem setKind_score (t : String) (h : weightOf t = 1) (e : Event) :
    eventScore (if e.event_type = t then { e with event_type := ("view") }
      else e) = eventScore e := by
  by_cases h' : e.event_type = t
  · have hv : weightOf ("view") = 1 := by simp [weightOf, eventWeights, dictGet]
    simp [if_pos h', eventScore, hv, h', h]
  · simp [if_neg h']

theorem windowEvents_setKind (t : String) (db : DB) (u : String) (days : ℕ) :
    windowEvents (setKind t db) u days
      = (windowEvents db u days).map (fun e =>
          if e.event_type = t then { e with event_type := ("view") } else e) := by
  unfold windowEvents setKind
  rw [List.filter_map]
  congr 1
  apply List.filter_congr
  intro e _
  by_cases h' : e.event_type = t <;> simp [Function.comp, h']

theorem flatMap_map_comm {α β : Type} (l : List α) (g : α → α)
    (F : α → List β) (G : β → β) (h : ∀ e, F (g e) = (F e).map G) :
    (l.map g).flatMap F = (l.flatMap F).map G := by
  induction l with
  | nil => rfl
  | cons x xs ih => simp only [List.map_cons, List.flatMap_cons,
      List.map_append, h, ih]

theorem outerRows_setKind (t : String) (db : DB) (u : String) (days : ℕ) :
    outerRows (setKind t db) u days
      = (outerRows db u days).map (fun e =>
          if e.event_type = t then { e with event_type := ("view") } else e) := by
  unfold outerRows
  rw [windowEvents_setKind, articles_setKind]
  apply flatMap_map_comm
  intro e
  by_cases h' : e.event_type = t
  · simp only [if_pos h']
    show (db.articles.filter (fun a => a.id == e.article_id)).flatMap _ = _
    simp [List.map_flatMap, List.map_map, catsOf_setKind, if_pos h']
  · simp only [if_neg h']
    simp [List.map_flatMap, List.map_map, catsOf_setKind, if_neg h']

theorem accumScores_setKind (t : String) (h : weightOf t = 1) (db : DB)
    (u : String) (days : ℕ) :
    accumScores (setKind t db) u days = accumScores db u days := by
  unfold accumScores
  rw [outerRows_setKind, List.foldl_map]
  congr 1
  funext d e
  by_cases h' : e.event_type = t
  · have hs := setKind_score t h e
    rw [if_pos h'] at hs
    simp only [if_pos h', catsOf_setKind]
    show (catsOf db e.article_id).foldl _ d = _
    rw [show eventScore { e with event_type := ("view") } = eventScore e from hs]
  · simp only [if_neg h', catsOf_setKind]

/-- C9: an event whose kind is none of view/read/bookmark/skip/scroll is not
rejected: `weights.get(event_type, 1.0)` scores it with event weight 1.0,
the same as a view, so replacing every such kind by `view` leaves
`get_user_category_preferences` unchanged. -/
theorem c9_unknown_kind_counts_as_view (t : String)
    (h : t ∉ [("view"), ("read"), ("bookmark"), ("skip"), ("scroll")])
    (db : DB) (u : String) (days : ℕ) :
    weightOf t = 1 ∧ weightOf t = weightOf ("view")
    ∧ getUserCategoryPreferences (setKind t db) u days
        = getUserCategoryPreferences db u days := by
  simp only [List.mem_cons, List.not_mem_nil, or_false, not_or] at h
  obtain ⟨h1', h2', h3', h4', h5'⟩ := h
  have h1 : weightOf t = 1 := by
    simp [weightOf, eventWeights, dictGet, Ne.symm h1', Ne.symm h2',
      Ne.symm h3', Ne.symm h4', Ne.symm h5']
  refine ⟨h1, ?_, ?_⟩
  · rw [h1]
    simp [weightOf, eventWeights, dictGet]
  · unfold getUserCategoryPreferences
    rw [accumScores_setKind t h1 db u days]

/-- An unrecognized event kind ("party") on a Nature article. -/
def db9 : DB :=
  ⟨[art 3 [("Nature")]], [(3, ("Nature"))],
   [⟨3, ("party"), ("captain"), 300, 0, 2⟩]⟩

/-- C9 witness: the unrecognized kind "party" is scored exactly like a view
on a concrete database. -/
theorem c9_unknown_kind_counts_as_view_witness :
    ("party") ∉ [("view"), ("read"), ("bookmark"), ("skip"), ("scroll")]
    ∧ (weightOf ("party") = 1 ∧ weightOf ("party") = weightOf ("view")
        ∧ getUserCategoryPreferences (setKind ("party") db9) ("captain") 30
            = getUserCategoryPreferences db9 ("captain") 30) :=
  ⟨by simp, c9_unknown_kind_counts_as_view ("party") (by simp) db9 ("captain") 30⟩

/-! ### String utilities: lower-casing and substring search -/

def lowerStr (s : String) : String := String.mk (s.data.map Char.toLower)

/-- The needle is a leading segment of the hay. -/
def leadEq : List Char → List Char → Bool
  | [], _ => true
  | _ :: _, [] => false
  | a :: as, b :: bs => a == b && leadEq as bs

/-- The needle occurs somewhere in the hay. -/
def hasSub : List Char → List Char → Bool
  | [], n => n.isEmpty
  | c :: t, n => leadEq n (c :: t) || hasSub t n

/-- Python's `needle in hay` / SQL `hay LIKE '%needle%'` substring test. -/
def strHas (hay kw : String) : Bool := hasSub hay.data kw.data

/-! ### Recommendation engine (src/engine/recommendations.py) -/

/-- Truncation toward zero: Python's `int()` applied to a float. -/
def pyInt (q : ℚ) : Int := if 0 ≤ q then ⌊q⌋ else ⌈q⌉

/-- The `CASE` over `e.event_type` in `_get_category_weights` (note the
`ELSE 0.5` default, unlike the 1.0 default of the Python dict). -/
def sqlCaseWeight (t : String) : ℚ :=
  if t = ("view") then 1
  else if t = ("read") then 2
  else if t = ("bookmark") then 5
  else if t = ("skip") then -2
  else 1/2

/-- `CASE WHEN e.duration_seconds > 0 THEN MIN(e.duration_seconds / 600.0,
1.0) ELSE 0.5 END`. -/
def sqlCaseDuration (d : ℚ) : ℚ := if 0 < d then min (d / 600) 1 else 1/2

/-- Rows of `engagement ⋈ article_categories ⋈ categories` for the user (no
`articles` join and no time window in this query): one
`(category name, event)` pair per join row. -/
def weightRows (db : DB) (user : String) : List (String × Event) :=
  (db.events.filter (fun e => e.user_id == user)).flatMap (fun e =>
    (catsOf db e.article_id).map (fun c => (c, e)))

/-- `SUM(case-weight × case-duration)` over the user's rows of one
category group. -/
def catSumSql (db : DB) (user : String) (c : String) : ℚ :=
  (((weightRows db user).filter (fun r => r.1 == c)).map
    (fun r => sqlCaseWeight r.2.event_type
      * sqlCaseDuration r.2.duration_seconds)).sum

/-- The `ORDER BY` key of `_get_category_weights`: the sum of the bare
case-weights of the group. -/
def orderKeySql (db : DB) (user : String) (c : String) : ℚ :=
  (((weightRows db user).filter (fun r => r.1 == c)).map
    (fun r => sqlCaseWeight r.2.event_type)).sum

/-- Distinct values in order of first appearance (the `GROUP BY` keys, and
`SELECT DISTINCT` rows). -/
def dedupFirst {α : Type} [DecidableEq α] (l : List α) : List α :=
  l.foldl (fun acc x => if x ∈ acc then acc else acc ++ [x]) []

/-- One step of a stable insertion sort, descending in the given key. -/
def insertDesc {α : Type} (key : α → ℚ) (x : α) : List α → List α
  | [] => [x]
  | y :: ys => if key y ≤ key x then x :: y :: ys else y :: insertDesc key x ys

/-- Stable sort, descending in the given key: Python's stable
`sort(..., reverse=True)` and the SQL `ORDER BY ... DESC`. -/
def sortByDesc {α : Type} (key : α → ℚ) (l : List α) : List α :=
  l.foldr (insertDesc key) []

/-- `_get_category_weights` before normalization: per-category SQL sums of
the user's engagement (top 50 groups in descending order-key order), each
clamped below by the minimum weight 0.1. -/
def getCategoryWeightsRaw (db : DB) (user : String) : List (String × ℚ) :=
  ((sortByDesc (orderKeySql db user)
      (dedupFirst ((weightRows db user).map Prod.fst))).take 50).map
    (fun c => (c, max (1/10) (catSumSql db user c)))

/-- `_get_category_weights`: the clamped sums normalized by their maximum
(`if weights: ... v / max_w`). -/
def getCategoryWeights (db : DB) (user : String) : List (String × ℚ) :=
  if getCategoryWeightsRaw db user = [] then getCategoryWeightsRaw db user
  else (getCategoryWeightsRaw db user).map
    (fun kv => (kv.1,
      kv.2 / maxVal ((getCategoryWeightsRaw db user).map Prod.snd)))

/-- SQLite `a.categories LIKE '%cat%'` — ASCII case-insensitive substring
match on the raw text of the `categories` column. -/
def catLike (a : Article) (c : String) : Bool :=
  strHas (lowerStr a.categoriesJson) (lowerStr c)

/-- The WHERE clause of `_score_articles`: `a.id > 0`, the OR of the
category LIKE conditions (only when the weights dict is non-empty), and
`a.id NOT IN (exclude_set)`. -/
def scoreFilter (weights : List (String × ℚ)) (excl : List Int)
    (a : Article) : Bool :=
  decide (0 < a.id)
    && (weights.isEmpty || weights.any (fun kv => catLike a kv.1))
    && !(excl.contains a.id)

/-- `popularity_boost = min(access_count / 100, 1.0) * 0.2`. -/
def popularityBoost (a : Article) : ℚ :=
  min ((a.access_count : ℚ) / 100) 1 * (2/10)

/-- The best-match category score: the maximum weight among the article's
categories present in the weights dict, defaulting to 0.5. -/
def articleCategoryScore (weights : List (String × ℚ)) (a : Article) : ℚ :=
  if a.categories ≠ [] ∧ weights ≠ [] then
    if (a.categories.filter (fun c => (dictGet weights c).isSome)) ≠ [] then
      maxVal ((a.categories.filter (fun c => (dictGet weights c).isSome)).map
        (fun c => (dictGet weights c).getD 0))
    else 1/2
  else 1/2

/-- `total_score = (category_score * 0.7) + (popularity_boost * 0.3)`. -/
def totalScore (weights : List (String × ℚ)) (a : Article) : ℚ :=
  articleCategoryScore weights a * (7/10) + popularityBoost a * (3/10)

/-- `_score_articles`: the filtered pool in descending access-count order
(`LIMIT 500`), scored, then stably sorted by score descending. -/
def scoredArticles (db : DB) (weights : List (String × ℚ)) (excl : List Int) :
    List (Article × ℚ) :=
  sortByDesc Prod.snd
    (((sortByDesc (fun a => (a.access_count : ℚ))
        (db.articles.filter (scoreFilter weights excl))).take 500).map
      (fun a => (a, totalScore weights a)))

/-- `_get_read_articles`: distinct article ids of the user's view or read
events. -/
def readArticles (db : DB) (user : String) : List Int :=
  dedupFirst ((db.events.filter (fun e => e.user_id == user
    && (e.event_type == ("view") || e.event_type == ("read")))).map
    (fun e => e.article_id))

/-- `_get_random_articles`: every article outside the exclusion set, in the
order of the `ORDER BY RANDOM()` draw (the `randPerm` parameter), truncated
by `LIMIT count`.  Articles already chosen by the ranked step are *not*
excluded here. -/
def randomArticles (db : DB) (excl : List Int) (cnt : ℕ)
    (randPerm : List Article → List Article) : List Article :=
  (randPerm (db.articles.filter (fun a => !(excl.contains a.id)))).take cnt

/-- A feed entry: an article together with its relevance score and its pool
label. -/
structure FeedEntry where
  article : Article
  relevance_score : ℚ
  recommendation_type : String
deriving DecidableEq

/-- `get_recommendations`: learned weights, exclusion of prior reads, the
top `recommend_count` ranked entries, `random_count` random entries, a
shuffle (the `shuffle` parameter), and truncation to `count`. -/
def getRecommendations (db : DB) (user : String) (count : ℕ) (feed_mix : ℚ)
    (excluded : List Int) (randPerm : List Article → List Article)
    (shuffle : List FeedEntry → List FeedEntry) : List FeedEntry :=
  (shuffle (
    (if scoredArticles db (getCategoryWeights db user)
          (excluded ++ readArticles db user) ≠ []
        ∧ 0 < pyInt ((count : ℚ) * (1 - feed_mix)) then
      ((scoredArticles db (getCategoryWeights db user)
          (excluded ++ readArticles db user)).take
        (pyInt ((count : ℚ) * (1 - feed_mix))).toNat).map
        (fun p => ⟨p.1, p.2, ("recommended")⟩)
    else [])
    ++
    (if 0 < (count : Int) - pyInt ((count : ℚ) * (1 - feed_mix)) then
      (randomArticles db (excluded ++ readArticles db user)
        ((count : Int) - pyInt ((count : ℚ) * (1 - feed_mix))).toNat
        randPerm).map
        (fun a => ⟨a, 3/10, ("discovery")⟩)
    else []))).take count

/-! ### Claim C10 -/

/-- C10: whatever the feed mix (also outside [0,1], where the two pool sizes
no longer sum to `count`), the exclusion list and the random draws, the final
`recommendations[:count]` truncation bounds the feed length by `count`. -/
theorem c10_feed_length_bound (db : DB) (user : String) (count : ℕ)
    (feed_mix : ℚ) (excluded : List Int)
    (randPerm : List Article → List Article)
    (shuffle : List FeedEntry → List FeedEntry) :
    (getRecommendations db user count feed_mix excluded randPerm
      shuffle).length ≤ count := by
  unfold getRecommendations
  exact List.length_take_le _ _

/-! ### Claim C1 -/

/-- A user whose only engagement is a skip (duration 600, so case-duration
factor 1) on an article of category Sports: the accumulated Sports sum is
−2. -/
def db1 : DB :=
  ⟨[], [(5, ("Sports"))], [⟨5, ("skip"), ("captain"), 600, 0, 0⟩]⟩

/-- C1 counterexample: the Sports category accumulates −2, yet
`_get_category_weights` clamps the sum to `max(0.1, ...)` and normalizes it
to the weight 1, which is not negative — the recommendation path does not
preserve the avoidance signal. -/
theorem c1_counterexample :
    catSumSql db1 ("captain") ("Sports") = -2
    ∧ getCategoryWeights db1 ("captain") = [(("Sports"), 1)]
    ∧ ¬ ((1 : ℚ) < 0) :=
  ⟨by
    simp [catSumSql, weightRows, catsOf, db1, sqlCaseWeight, sqlCaseDuration],
   by
    simp [getCategoryWeights, getCategoryWeightsRaw, weightRows, catsOf, db1,
      sqlCaseWeight, sqlCaseDuration, catSumSql, orderKeySql, dedupFirst,
      sortByDesc, insertDesc, maxVal]
    norm_num,
   by norm_num⟩

theorem getCategoryWeightsRaw_ge (db : DB) (u : String) :
    ∀ p ∈ getCategoryWeightsRaw db u, (1/10 : ℚ) ≤ p.2 := by
  intro p hp
  unfold getCategoryWeightsRaw at hp
  obtain ⟨c, _, rfl⟩ := List.mem_map.mp hp
  exact le_max_left _ _

/-- C1 (amended): `_get_category_weights` clamps every per-category sum to a
minimum of 0.1 before normalizing by the (hence positive) maximum, so every
weight used by the recommendation path is strictly positive: negative
accumulated values are clamped away, not preserved. -/
theorem c1_weights_clamped_positive (db : DB) (u : String) :
    ∀ kv ∈ getCategoryWeights db u, 0 < kv.2 := by
  intro kv hkv
  unfold getCategoryWeights at hkv
  by_cases h : getCategoryWeightsRaw db u = []
  · rw [if_pos h, h] at hkv
    exact absurd hkv (List.not_mem_nil kv)
  · rw [if_neg h] at hkv
    obtain ⟨p, hp, rfl⟩ := List.mem_map.mp hkv
    have hv : (1/10 : ℚ) ≤ p.2 := getCategoryWeightsRaw_ge db u p hp
    have hm : maxVal ((getCategoryWeightsRaw db u).map Prod.snd)
        ∈ (getCategoryWeightsRaw db u).map Prod.snd :=
      maxVal_mem _ (by simpa using h)
    obtain ⟨q, hq, hq2⟩ := List.mem_map.mp hm
    have hm10 : (1/10 : ℚ)
        ≤ maxVal ((getCategoryWeightsRaw db u).map Prod.snd) :=
      hq2 ▸ getCategoryWeightsRaw_ge db u q hq
    exact div_pos (lt_of_lt_of_le (by norm_num) hv)
      (lt_of_lt_of_le (by norm_num) hm10)

/-- C1 witness: the skip-only user's clamped Sports weight is positive. -/
theorem c1_weights_clamped_positive_witness : (0 : ℚ) < 1 :=
  c1_weights_clamped_positive db1 ("captain") ((("Sports"), 1))
    (by
      simp [getCategoryWeights, getCategoryWeightsRaw, weightRows, catsOf,
        db1, sqlCaseWeight, sqlCaseDuration, catSumSql, orderKeySql,
        dedupFirst, sortByDesc, insertDesc, maxVal]
      norm_num)

/-! ### Claim C2 -/

/-- A single unread article and no engagement: the article tops the ranked
pool and remains in the random pool. -/
def db2 : DB := ⟨[art 1 []], [], []⟩

/-- C2 counterexample: with one candidate article, `count = 2` and
`feed_mix = 0.5` (identity random draw and shuffle), article 1 is returned
both as the ranked entry and as the random entry — the feed repeats an
entry, because `_get_random_articles` receives only `exclude_set` and not
the articles already chosen in the ranked step. -/
theorem c2_counterexample :
    (getRecommendations db2 ("captain") 2 (1/2) [] (fun l => l)
        (fun l => l)).map (fun e => e.article.id) = [1, 1]
    ∧ ¬ ((getRecommendations db2 ("captain") 2 (1/2) [] (fun l => l)
        (fun l => l)).map (fun e => e.article.id)).Nodup := by
  constructor
  · simp [getRecommendations, scoredArticles, getCategoryWeights,
      getCategoryWeightsRaw, weightRows, catsOf, db2, art, readArticles,
      dedupFirst, sortByDesc, insertDesc, scoreFilter, totalScore,
      articleCategoryScore, popularityBoost, randomArticles, pyInt, maxVal]
    norm_num
  · rw [show (getRecommendations db2 ("captain") 2 (1/2) [] (fun l => l)
        (fun l => l)).map (fun e => e.article.id) = [1, 1] from ?_]
    · simp
    · simp [getRecommendations, scoredArticles, getCategoryWeights,
        getCategoryWeightsRaw, weightRows, catsOf, db2, art, readArticles,
        dedupFirst, sortByDesc, insertDesc, scoreFilter, totalScore,
        articleCategoryScore, popularityBoost, randomArticles, pyInt, maxVal]
      norm_num

/-- C2 (amended): the `discoveryCount` random articles are sampled from the
articles table minus `exclude_set` only — the articles already chosen in the
ranked step are not removed from the draw, so while no discovery entry can
come from `exclude_set`, a ranked article may reappear as a discovery entry
and the feed can repeat an entry. -/
theorem c2_discovery_avoids_exclude_set_only (db : DB) (u : String)
    (count : ℕ) (mix : ℚ) (excluded : List Int)
    (randPerm : List Article → List Article)
    (shuffle : List FeedEntry → List FeedEntry)
    (hr : ∀ l, randPerm l ⊆ l) (hs : ∀ l, shuffle l ⊆ l) :
    ∀ e ∈ getRecommendations db u count mix excluded randPerm shuffle,
      e.recommendation_type = ("discovery") →
        e.article.id ∉ excluded ++ readArticles db u := by
  intro e he hdisc
  unfold getRecommendations at he
  have he2 := (hs _) (List.take_subset _ _ he)
  rcases List.mem_append.mp he2 with hL | hR
  · by_cases hg : scoredArticles db (getCategoryWeights db u)
        (excluded ++ readArticles db u) ≠ []
        ∧ 0 < pyInt ((count : ℚ) * (1 - mix))
    · rw [if_pos hg] at hL
      obtain ⟨p, _, rfl⟩ := List.mem_map.mp hL
      exact absurd hdisc (by simp)
    · rw [if_neg hg] at hL
      exact absurd hL (List.not_mem_nil e)
  · by_cases hg : 0 < (count : Int) - pyInt ((count : ℚ) * (1 - mix))
    · rw [if_pos hg] at hR
      obtain ⟨a, ha, rfl⟩ := List.mem_map.mp hR
      intro hmem
      have ha2 : a ∈ db.articles.filter
          (fun x => !((excluded ++ readArticles db u).contains x.id)) :=
        (hr _) (List.take_subset _ _ ha)
      have ha3 := (List.mem_filter.mp ha2).2
      simp only [Bool.not_eq_true'] at ha3
      exact absurd hmem (by simpa using ha3)
    · rw [if_neg hg] at hR
      exact absurd hR (List.not_mem_nil e)

/-- C2 witness: on `db2` the discovery entry's article id 1 is outside the
(empty) exclusion set. -/
theorem c2_discovery_avoids_exclude_set_only_witness :
    (⟨art 1 [], 3/10, ("discovery")⟩ : FeedEntry).article.id
      ∉ [] ++ readArticles db2 ("captain") :=
  c2_discovery_avoids_exclude_set_only db2 ("captain") 2 (1/2) []
    (fun l => l) (fun l => l) (fun _ => List.Subset.refl _)
    (fun _ => List.Subset.refl _)
    (⟨art 1 [], 3/10, ("discovery")⟩ : FeedEntry)
    (by
      simp [getRecommendations, scoredArticles, getCategoryWeights,
        getCategoryWeightsRaw, weightRows, catsOf, db2, art, readArticles,
        dedupFirst, sortByDesc, insertDesc, scoreFilter, totalScore,
        articleCategoryScore, popularityBoost, randomArticles, pyInt, maxVal]
      norm_num)
    rfl

/-! ### Claim C6 -/

/-- C6 (amended): with `feed_mix ∈ [0,1]` the Python `int()` truncation
agrees with the specified floor, `recommend_count = int(count * (1 -
feed_mix))` is 14 for `count = 20, feed_mix = 0.3`, and the built feed
consists of exactly 14 recommended-labelled and 6 discovery-labelled
entries (20 in total) when the ranked pool *after the category-LIKE filter
of `_score_articles`* still holds at least 14 articles and the non-excluded
pool at least 6 — merely having 20 eligible non-excluded candidates is not
enough (see the counterexample). -/
theorem c6_feed_split (db : DB) (user : String) (excluded : List Int)
    (randPerm : List Article → List Article)
    (shuffle : List FeedEntry → List FeedEntry)
    (hr : ∀ l : List Article, List.Perm (randPerm l) l)
    (hs : ∀ l : List FeedEntry, List.Perm (shuffle l) l)
    (hscored : 14 ≤ (scoredArticles db (getCategoryWeights db user)
        (excluded ++ readArticles db user)).length)
    (hpool : 6 ≤ (db.articles.filter (fun a =>
        !((excluded ++ readArticles db user).contains a.id))).length) :
    (∀ (count : ℕ) (mix : ℚ), 0 ≤ mix → mix ≤ 1 →
        pyInt ((count : ℚ) * (1 - mix)) = ⌊(count : ℚ) * (1 - mix)⌋)
    ∧ pyInt (((20 : ℕ) : ℚ) * (1 - 3/10)) = 14
    ∧ ((getRecommendations db user 20 (3/10) excluded randPerm
          shuffle).countP
            (fun e => e.recommendation_type == ("recommended")) = 14
      ∧ (getRecommendations db user 20 (3/10) excluded randPerm
          shuffle).countP
            (fun e => e.recommendation_type == ("discovery")) = 6
      ∧ (getRecommendations db user 20 (3/10) excluded randPerm
          shuffle).length = 20) := by
  have h14 : pyInt (((20 : ℕ) : ℚ) * (1 - 3/10)) = 14 := by
    norm_num [pyInt]
  refine ⟨?_, h14, ?_⟩
  · intro count mix h0 h1
    unfold pyInt
    rw [if_pos (mul_nonneg (Nat.cast_nonneg count) (by linarith))]
  · have hg1 : scoredArticles db (getCategoryWeights db user)
        (excluded ++ readArticles db user) ≠ [] :=
      List.length_pos.mp (by omega)
    have hg2 : (0 : Int) < ((20 : ℕ) : Int)
        - pyInt (((20 : ℕ) : ℚ) * (1 - 3/10)) := by
      rw [h14]
      norm_num
    unfold getRecommendations
    rw [if_pos ⟨hg1, by rw [h14]; norm_num⟩, if_pos hg2]
    rw [h14]
    have hcnt : (((20 : ℕ) : Int) - 14).toNat = 6 := by decide
    rw [hcnt]
    have hRlen : ((scoredArticles db (getCategoryWeights db user)
        (excluded ++ readArticles db user)).take (Int.toNat 14)).length
          = 14 := by
      rw [List.length_take]
      omega
    have hDlen : (randomArticles db (excluded ++ readArticles db user) 6
        randPerm).length = 6 := by
      unfold randomArticles
      rw [List.length_take, (hr _).length_eq]
      omega
    have hlen : (((scoredArticles db (getCategoryWeights db user)
          (excluded ++ readArticles db user)).take (Int.toNat 14)).map
            (fun p => (⟨p.1, p.2, ("recommended")⟩ : FeedEntry))
        ++ (randomArticles db (excluded ++ readArticles db user) 6
            randPerm).map
            (fun a => (⟨a, 3/10, ("discovery")⟩ : FeedEntry))).length
          = 20 := by
      rw [List.length_append, List.length_map, List.length_map, hRlen, hDlen]
    have hslen := ((hs _).length_eq).trans hlen
    rw [List.take_of_length_le (le_of_eq hslen)]
    rw [(hs _).countP_eq, (hs _).countP_eq, List.countP_append,
      List.countP_append]
    have hRrec : (((scoredArticles db (getCategoryWeights db user)
        (excluded ++ readArticles db user)).take (Int.toNat 14)).map
          (fun p => (⟨p.1, p.2, ("recommended")⟩ : FeedEntry))).countP
            (fun e => e.recommendation_type == ("recommended"))
          = 14 := by
      rw [List.countP_eq_length.mpr, List.length_map, hRlen]
      intro e he
      obtain ⟨p, _, rfl⟩ := List.mem_map.mp he
      simp
    have hRdis : (((scoredArticles db (getCategoryWeights db user)
        (excluded ++ readArticles db user)).take (Int.toNat 14)).map
          (fun p => (⟨p.1, p.2, ("recommended")⟩ : FeedEntry))).countP
            (fun e => e.recommendation_type == ("discovery")) = 0 := by
      rw [List.countP_eq_zero]
      intro e he
      obtain ⟨p, _, rfl⟩ := List.mem_map.mp he
      simp
    have hDrec : ((randomArticles db (excluded ++ readArticles db user) 6
        randPerm).map
          (fun a => (⟨a, 3/10, ("discovery")⟩ : FeedEntry))).countP
            (fun e => e.recommendation_type == ("recommended")) = 0 := by
      rw [List.countP_eq_zero]
      intro e he
      obtain ⟨a, _, rfl⟩ := List.mem_map.mp he
      simp
    have hDdis : ((randomArticles db (excluded ++ readArticles db user) 6
        randPerm).map
          (fun a => (⟨a, 3/10, ("discovery")⟩ : FeedEntry))).countP
            (fun e => e.recommendation_type == ("discovery")) = 6 := by
      rw [List.countP_eq_length.mpr, List.length_map, hDlen]
      intro e he
      obtain ⟨a, _, rfl⟩ := List.mem_map.mp he
      simp
    rw [hRrec, hRdis, hDrec, hDdis, hslen]
    omega

/-- Twenty blank articles, no engagement: both pools are large enough for a
full 20-entry feed. -/
def db6 : DB :=
  ⟨[art 1 [], art 2 [], art 3 [], art 4 [], art 5 [], art 6 [], art 7 [],
    art 8 [], art 9 [], art 10 [], art 11 [], art 12 [], art 13 [],
    art 14 [], art 15 [], art 16 [], art 17 [], art 18 [], art 19 [],
    art 20 []], [], []⟩

/-- The twenty blank candidates of `db6` together with a view (duration
600, today) on article 21, whose only category is Science: the learned
weights become `{Science: 1}`, but no candidate's `categories` text matches
`LIKE '%science%'`, so the ranked pool is empty while all 20 candidates
stay eligible for the random draw. -/
def db6c : DB :=
  ⟨db6.articles, [(21, ("Science"))],
   [⟨21, ("view"), ("captain"), 600, 0, 0⟩]⟩

/-- C6 counterexample: on `db6c` at least 20 eligible (non-excluded)
candidates exist, yet `get_recommendations(count=20, feed_mix=0.3)` returns
0 ranked-derived entries and only 6 entries in total — the category-LIKE
filter of `_score_articles` empties the ranked pool, refuting "returns
exactly 14 ranked-derived and 6 random-derived entries when ≥ 20 eligible
candidates exist". -/
theorem c6_counterexample :
    20 ≤ (db6c.articles.filter (fun a =>
        !((([] : List Int) ++ readArticles db6c ("captain")).contains
          a.id))).length
    ∧ (getRecommendations db6c ("captain") 20 (3/10) [] (fun l => l)
        (fun l => l)).countP
          (fun e => e.recommendation_type == ("recommended")) = 0
    ∧ (getRecommendations db6c ("captain") 20 (3/10) [] (fun l => l)
        (fun l => l)).length = 6
    ∧ (0 : ℕ) ≠ 14 := by
  refine ⟨?_, ?_, ?_, by norm_num⟩
  · simp [db6c, db6, art, readArticles, dedupFirst]
  · simp [getRecommendations, scoredArticles, getCategoryWeights,
      getCategoryWeightsRaw, weightRows, catsOf, db6c, db6, art,
      readArticles, dedupFirst, sortByDesc, insertDesc, scoreFilter,
      catLike, lowerStr, strHas, hasSub, leadEq, totalScore,
      articleCategoryScore, popularityBoost, randomArticles, pyInt,
      catSumSql, orderKeySql, sqlCaseWeight, sqlCaseDuration, maxVal,
      Int.toNat]
    norm_num
    decide
  · simp [getRecommendations, scoredArticles, getCategoryWeights,
      getCategoryWeightsRaw, weightRows, catsOf, db6c, db6, art,
      readArticles, dedupFirst, sortByDesc, insertDesc, scoreFilter,
      catLike, lowerStr, strHas, hasSub, leadEq, totalScore,
      articleCategoryScore, popularityBoost, randomArticles, pyInt,
      catSumSql, orderKeySql, sqlCaseWeight, sqlCaseDuration, maxVal,
      Int.toNat]
    norm_num

/-- C6 witness: on twenty candidate articles (and no preference weights, so
the LIKE filter is skipped) the feed is exactly 14 recommended plus 6
discovery entries. -/
theorem c6_feed_split_witness :
    pyInt (((20 : ℕ) : ℚ) * (1 - 3/10)) = 14
    ∧ ((getRecommendations db6 ("captain") 20 (3/10) [] (fun l => l)
          (fun l => l)).countP
            (fun e => e.recommendation_type == ("recommended")) = 14
      ∧ (getRecommendations db6 ("captain") 20 (3/10) [] (fun l => l)
          (fun l => l)).countP
            (fun e => e.recommendation_type == ("discovery")) = 6
      ∧ (getRecommendations db6 ("captain") 20 (3/10) [] (fun l => l)
          (fun l => l)).length = 20) :=
  (c6_feed_split db6 ("captain") [] (fun l => l) (fun l => l)
    (fun l => List.Perm.refl l) (fun l => List.Perm.refl l)
    (by
      simp [scoredArticles, getCategoryWeights, getCategoryWeightsRaw,
        weightRows, catsOf, db6, art, readArticles, dedupFirst, sortByDesc,
        insertDesc, scoreFilter, totalScore, articleCategoryScore,
        popularityBoost, maxVal])
    (by
      simp [db6, art, readArticles, dedupFirst])).2

/-! ### Claim C7 -/

/-- The storage error of spec §7. -/
inductive StorageError where
  | storageError
deriving DecidableEq

/-- A stored engagement row as inserted by `record_event`. -/
structure StoredEvent where
  article_id : Int
  user_id : String
  event_type : String
  duration_seconds : ℚ
  scroll_depth : ℚ
deriving DecidableEq

/-- Modelled from the spec: the storage layer is not under src/ — schema.sql
and the SQLite store (which the spec makes responsible for reference
validity) are absent, `record_event` in engagement.py only issues the
INSERT.  Per spec §4.2/§6/§7 the store knows the valid article and user
references and keeps an append-only event log. -/
structure Store where
  validArticles : List Int
  validUsers : List String
  log : List StoredEvent
deriving DecidableEq

/-- Modelled from the spec: `recordEvent` appends an EngagementEvent and
returns a monotonically increasing identifier (the rowid of the append-only
log); it fails with `StorageError` when the article or user reference is
invalid, aborting without partial state. -/
def recordEvent (s : Store) (article_id : Int) (user_id : String)
    (event_type : String) (duration : ℚ) (scroll : ℚ) :
    Except StorageError ℕ × Store :=
  if article_id ∈ s.validArticles ∧ user_id ∈ s.validUsers then
    (Except.ok (s.log.length + 1),
     { s with log := s.log
        ++ [⟨article_id, user_id, event_type, duration, scroll⟩] })
  else (Except.error StorageError.storageError, s)

/-- C7: an invalid article or user reference makes `recordEvent` fail with
`StorageError` and leaves the store (its event log included) unchanged; a
valid call returns the identifier `log.length + 1`, and a second valid call
returns `log.length + 2` — identifiers increase monotonically. -/
theorem c7_record_event_contract (s : Store) (a : Int) (u t : String)
    (d sc : ℚ) :
    (¬ (a ∈ s.validArticles ∧ u ∈ s.validUsers) →
      recordEvent s a u t d sc
        = (Except.error StorageError.storageError, s))
    ∧ ((a ∈ s.validArticles ∧ u ∈ s.validUsers) →
        (recordEvent s a u t d sc).1 = Except.ok (s.log.length + 1)
        ∧ ∀ (a' : Int) (u' t' : String) (d' sc' : ℚ),
            (a' ∈ s.validArticles ∧ u' ∈ s.validUsers) →
              (recordEvent (recordEvent s a u t d sc).2 a' u' t' d' sc').1
                  = Except.ok (s.log.length + 2)
              ∧ s.log.length + 1 < s.log.length + 2) := by
  refine ⟨fun h => by simp [recordEvent, h], fun h => ⟨by simp [recordEvent, h], ?_⟩⟩
  intro a' u' t' d' sc' h'
  refine ⟨?_, by omega⟩
  simp [recordEvent, h, h']

/-- A store with one valid article and one valid user. -/
def store7 : Store := ⟨[1], [("captain")], []⟩

/-- C7 witness: on `store7`, an invalid article reference is rejected with
the store unchanged, and two valid calls return the increasing identifiers
1 and 2. -/
theorem c7_record_event_contract_witness :
    recordEvent store7 2 ("captain") ("view") 10 0
        = (Except.error StorageError.storageError, store7)
    ∧ (recordEvent store7 1 ("captain") ("view") 10 0).1
        = Except.ok (store7.log.length + 1)
    ∧ (recordEvent (recordEvent store7 1 ("captain") ("view") 10 0).2 1
        ("captain") ("read") 20 0).1 = Except.ok (store7.log.length + 2)
    ∧ store7.log.length + 1 < store7.log.length + 2 :=
  ⟨(c7_record_event_contract store7 2 ("captain") ("view") 10 0).1
      (by simp [store7]),
   ((c7_record_event_contract store7 1 ("captain") ("view") 10 0).2
      (by simp [store7])).1,
   (((c7_record_event_contract store7 1 ("captain") ("view") 10 0).2
      (by simp [store7])).2 1 ("captain") ("read") 20 0
      (by simp [store7])).1,
   (((c7_record_event_contract store7 1 ("captain") ("view") 10 0).2
      (by simp [store7])).2 1 ("captain") ("read") 20 0
      (by simp [store7])).2⟩

/-! ### Claim C8 -/

/-- The `CATEGORY_KEYWORDS` table of src/server.py, in source order. -/
def CATEGORY_KEYWORDS : List (String × List String) :=
  [(("Science"), [("physics"), ("chemistry"), ("biology"), ("scientist"),
      ("research"), ("experiment"), ("scientific"), ("theory"),
      ("discover")]),
   (("History"), [("war"), ("battle"), ("century"), ("ancient"),
      ("historic"), ("dynasty"), ("empire"), ("revolt"), ("treaty")]),
   (("Geography"), [("country"), ("city"), ("river"), ("mountain"),
      ("continent"), ("island"), ("region"), ("capital"), ("population")]),
   (("Literature"), [("book"), ("author"), ("novel"), ("poem"),
      ("playwright"), ("wrote"), ("published"), ("literary"), ("fiction")]),
   (("Arts"), [("painting"), ("sculpture"), ("music"), ("film"),
      ("artist"), ("museum"), ("gallery"), ("exhibition")]),
   (("Sports"), [("game"), ("player"), ("team"), ("championship"),
      ("tournament"), ("league"), ("score"), ("match")]),
   (("Politics"), [("government"), ("election"), ("president"), ("law"),
      ("parliament"), ("minister"), ("senate"), ("congress")]),
   (("Religion"), [("god"), ("church"), ("bible"), ("religious"),
      ("faith"), ("christian"), ("islam"), ("jewish"), ("temple")]),
   (("Nature"), [("animal"), ("plant"), ("species"), ("ecosystem"),
      ("environment"), ("bird"), ("fish"), ("mammal")]),
   (("Technology"), [("computer"), ("software"), ("internet"),
      ("engineering"), ("patent"), ("invented"), ("digital")]),
   (("People"), [("born"), ("died"), ("biography"), ("king"), ("queen"),
      ("president"), ("scientist"), ("author"), ("actor")])]

/-- The `person_keywords` list of `extract_categories`. -/
def personKeywords : List String :=
  [("born"), ("died"), ("king"), ("queen"), ("president"), ("emperor"),
   ("scientist"), ("author"), ("actor")]

/-- `extract_categories` (src/server.py): count keyword hits per category on
the lower-cased text, keep categories with a positive count, force-include
People on a biographical keyword, and fall back to General. -/
def extract_categories (text : String) : List String :=
  if (CATEGORY_KEYWORDS.foldl (fun acc p =>
        if 0 < p.2.countP (fun kw => strHas (lowerStr text) kw)
        then acc ++ [p.1] else acc) []
      |> fun cats =>
        if personKeywords.any (fun kw => strHas (lowerStr text) kw) then
          (if ("People") ∈ cats then cats else cats ++ [("People")])
        else cats) = [] then [("General")]
  else (CATEGORY_KEYWORDS.foldl (fun acc p =>
        if 0 < p.2.countP (fun kw => strHas (lowerStr text) kw)
        then acc ++ [p.1] else acc) []
      |> fun cats =>
        if personKeywords.any (fun kw => strHas (lowerStr text) kw) then
          (if ("People") ∈ cats then cats else cats ++ [("People")])
        else cats)

theorem foldl_keywords_of_no_hit (tl : String)
    (L : List (String × List String))
    (h : ∀ p ∈ L, ∀ kw ∈ p.2, strHas tl kw = false) :
    ∀ acc : List String,
      L.foldl (fun acc p =>
        if 0 < p.2.countP (fun kw => strHas tl kw)
        then acc ++ [p.1] else acc) acc = acc := by
  induction L with
  | nil => intro acc; rfl
  | cons p L' ih =>
      intro acc
      rw [List.foldl_cons]
      have hz : p.2.countP (fun kw => strHas tl kw) = 0 := by
        rw [List.countP_eq_zero]
        intro kw hkw
        simp [h p (List.mem_cons_self p L') kw hkw]
      rw [hz]
      simp only [lt_irrefl, if_false]
      exact ih (fun q hq => h q (List.mem_cons_of_mem p hq)) acc

/-- C8: the classifier is a pure function of the text with
`classify("") = {General}`, its result on "The king died in the ancient
battle" includes both History and People, and whenever no category keyword
and no biographical keyword occurs in the text, the result is exactly
`{General}`. -/
theorem c8_classifier :
    extract_categories ("") = [("General")]
    ∧ (("History") ∈ extract_categories
          ("The king died in the ancient battle")
      ∧ ("People") ∈ extract_categories
          ("The king died in the ancient battle"))
    ∧ ∀ t : String,
        (∀ p ∈ CATEGORY_KEYWORDS, ∀ kw ∈ p.2,
          strHas (lowerStr t) kw = false) →
        (∀ kw ∈ personKeywords, strHas (lowerStr t) kw = false) →
        extract_categories t = [("General")] := by
  refine ⟨by decide, ⟨by decide, by decide⟩, ?_⟩
  intro t hcat hper
  have hf := foldl_keywords_of_no_hit (lowerStr t) CATEGORY_KEYWORDS hcat []
  have hp : personKeywords.any (fun kw => strHas (lowerStr t) kw) = false := by
    rw [List.any_eq_false]
    intro kw hkw
    simp [hper kw hkw]
  unfold extract_categories
  rw [hf, hp]
  simp

/-- C8 witness: a text without any keyword classifies as General. -/
theorem c8_classifier_witness : extract_categories ("xq") = [("General")] :=
  c8_classifier.2.2 ("xq") (by decide) (by decide)

end WikiFeed
